import Mathlib

/-!
Verification of the NewEPM consensus kernel (stake modifier engine, kernel
hash verifier, kernel script check) and the masternode payment layer
(`masternode-payments.cpp`), shallowly embedded in Lean.

Machine integers are modelled as `Nat` / `Int` with explicit reductions
mod 2^w at the points where the C++ code truncates.  The double-SHA256
primitive (`Hash`) is an external collaborator of the core (spec section 6);
it is abstracted as a parameter `H : List Nat -> Nat` mapping a byte string
(the `CDataStream` contents) to a 256-bit number.
-/

namespace EPM

/-- Little-endian serialization of `v` into `w` bytes, exactly what
`CDataStream` does for a `w`-byte unsigned integer (values are reduced
mod 2^(8w) like the C++ fixed-width write). -/
def serLE : Nat → Nat → List Nat
  | 0, _ => []
  | w + 1, v => (v % 256) :: serLE w (v / 256)

/-- Two's-complement conversion of an `int64_t` to a `uint64_t`, used where
the C++ code implicitly converts (`CDataStream << int64_t`,
`arith_uint256(int64 expression)`). -/
def toU64 (i : Int) : Nat := (i % (18446744073709551616 : Int)).toNat

theorem serLE_length (w v : Nat) : (serLE w v).length = w := by
  induction w generalizing v with
  | zero => rfl
  | succ w ih => simp [serLE, ih]

/-- `arith_uint256::SetCompact`.  Modelled from the spec: the compact
`nBits` decoding ("standard compact-to-256 expansion", spec section 4.4);
`arith_uint256.h` is not part of the sources under review. -/
def SetCompact (nCompact : Nat) : Nat :=
  let nSize := nCompact >>> 24
  let nWord := (nCompact % 4294967296) &&& 0x007fffff
  if nSize ≤ 3 then nWord >>> (8 * (3 - nSize))
  else (nWord <<< (8 * (nSize - 3))) % (2 ^ 256)

/-- `COIN` (satoshi scale), as in the repository's `amount.h`. -/
def COIN : Int := 100000000

/-- Consensus parameters read by `CheckStakeKernelHash`
(`Params().GetConsensus()`). -/
structure KernelParams where
  nStakeMinAge : Nat
  nStakeMaxAge : Nat
  nMinimumStakeValue : Int
deriving DecidableEq

/-- The block header of the block confirming the staked coin
(`const CBlockHeader& blockFrom`).  `nTime` is the header's 32-bit
timestamp field; `GetBlockTime()` returns it widened to `int64_t`. -/
structure CBlockHeaderM where
  nTime : Nat
deriving DecidableEq

/-- Outcome of `CheckStakeKernelHash`: `fail` covers every `return false`
taken before the kernel hash is written to the `hashProofOfStake`
out-parameter (time/age/amount gates and stake-modifier resolution);
`rejected h` / `accepted h` record the computed hash when the final target
comparison fails / succeeds. -/
inductive KernelResult where
  | fail
  | rejected (hashProofOfStake : Nat)
  | accepted (hashProofOfStake : Nat)
deriving DecidableEq

/-- The kernel hash preimage built at lines 307-316 of the kernel source:
`ss << nStakeModifier; ss << nTimeBlockFrom << nTxPrevOffset << txPrevTime
<< prevout.n << nTimeTx;`.  `nStakeModifier` is `uint64_t` (8 bytes),
`nTimeBlockFrom`, `nTxPrevOffset`, `prevout.n` and `nTimeTx` are 32-bit
(4 bytes each), and `txPrevTime` is the `int64_t` returned by
`blockFrom.GetBlockTime()` (8 bytes, two's complement little-endian). -/
def kernelPreimage (nStakeModifier : Nat) (nTimeBlockFrom : Nat)
    (nTxPrevOffset : Nat) (txPrevTime : Int) (prevoutN : Nat)
    (nTimeTx : Nat) : List Nat :=
  serLE 8 nStakeModifier ++ serLE 4 nTimeBlockFrom ++ serLE 4 nTxPrevOffset ++
    serLE 8 (toU64 txPrevTime) ++ serLE 4 prevoutN ++ serLE 4 nTimeTx

/-- The 28-byte preimage as the spec describes it (section 4.4): every field
serialized little-endian with `tx_prev.time` as a 32-bit value.  This
definition follows the spec's words, for comparison against
`kernelPreimage` which follows the source. -/
def specPreimage28 (modifier : Nat) (blockFromTime : Nat)
    (txOffsetInBlock : Nat) (txPrevTime32 : Nat) (prevoutN : Nat)
    (timeTx : Nat) : List Nat :=
  serLE 8 modifier ++ serLE 4 blockFromTime ++ serLE 4 txOffsetInBlock ++
    serLE 4 txPrevTime32 ++ serLE 4 prevoutN ++ serLE 4 timeTx

/-- `CheckStakeKernelHash` (kernel source lines 280-324).

* `H` abstracts the double-SHA256 `Hash` over the `CDataStream` bytes.
* `ksm` abstracts the result of the `GetKernelStakeModifier` call at line
  312 (`none` = that call returned false, `some m` = it produced modifier
  `m`); the resolver reads the global chain state and the adjusted clock,
  which are collaborators of the function under check.
* `txPrevVout` lists the output values of `txPrev`; line 294 reads
  `txPrev->vout[prevout.n].nValue` (callers guarantee the index is in
  bounds).

Note `auto txPrevTime = blockFrom.GetBlockTime()` is an `int64_t`, while
`unsigned int nTimeBlockFrom = blockFrom.GetBlockTime()` is 32-bit; both
hold the header's `nTime` value.  The multiplication in the final target
comparison is `arith_uint256` arithmetic, which is not under the sources
reviewed here; it is modelled from the spec (section 4.4: overflow into
higher limbs preserved, i.e. the full product). -/
def CheckStakeKernelHash (H : List Nat → Nat) (P : KernelParams)
    (ksm : Option Nat) (nBits : Nat) (blockFrom : CBlockHeaderM)
    (nTxPrevOffset : Nat) (txPrevVout : List Int) (prevoutN : Nat)
    (nTimeTx : Nat) : KernelResult :=
  -- auto txPrevTime = blockFrom.GetBlockTime();
  let txPrevTime : Int := blockFrom.nTime
  -- if (nTimeTx < txPrevTime) return error("nTime violation");
  if (nTimeTx : Int) < txPrevTime then .fail
  else
    -- unsigned int nTimeBlockFrom = blockFrom.GetBlockTime();
    let nTimeBlockFrom : Nat := blockFrom.nTime % 4294967296
    -- if (nTimeBlockFrom + nStakeMinAge > nTimeTx) return error("min age violation");
    if (nTimeBlockFrom : Int) + P.nStakeMinAge > (nTimeTx : Int) then .fail
    else
      let bnTargetPerCoinDay := SetCompact nBits
      let nValueIn : Int := txPrevVout.getD prevoutN 0
      -- if (nValueIn < nMinimumStakeValue) return error("min amount violation");
      if nValueIn < P.nMinimumStakeValue then .fail
      else
        let nTimeWeight : Int :=
          min ((nTimeTx : Int) - txPrevTime)
            ((P.nStakeMaxAge : Int) - (P.nStakeMinAge : Int))
        let bnCoinDayWeight : Nat :=
          toU64 (((nValueIn * nTimeWeight).tdiv COIN).tdiv 200)
        match ksm with
        | none => .fail
        | some nStakeModifier =>
          let hashProofOfStake :=
            H (kernelPreimage nStakeModifier nTimeBlockFrom nTxPrevOffset
                txPrevTime prevoutN nTimeTx)
          if bnCoinDayWeight * bnTargetPerCoinDay < hashProofOfStake then
            .rejected hashProofOfStake
          else
            .accepted hashProofOfStake

/-! ## Stake modifier engine (kernel source lines 43-225) -/

/-- One node of the block index (`CBlockIndex`), restricted to the fields
the stake modifier engine reads.  `nTime` is the block time as `int64_t`
(`GetBlockTime()`); `blockHash` is the 256-bit `GetBlockHash()` value;
`stakeEntropyBit` is `GetStakeEntropyBit()` (a single bit stored in
`nFlags`). -/
structure CBlockIndexM where
  nTime : Int
  blockHash : Nat
  fProofOfStake : Bool
  hashProofOfStake : Nat
  fGeneratedStakeModifier : Bool
  nStakeModifier : Nat
  stakeEntropyBit : Bool
deriving DecidableEq

/-- Context for the stake modifier engine: `paramsModifierInterval` is
`Params().GetConsensus().nModifierInterval` (used in the interval test and
the window start); `modifierIntervalGlobalVar` is the file-level global
`nModifierInterval` used by `GetStakeModifierSelectionIntervalSection`;
`modifierIntervalRatioConst` is the `MODIFIER_INTERVAL_RATIO` compile-time
constant. -/
structure StakeCtx where
  paramsModifierInterval : Int
  modifierIntervalGlobalVar : Nat
  modifierIntervalRatioConst : Nat
deriving DecidableEq

/-- `GetLastStakeModifier` (kernel source lines 49-62).  The chain is the
list `pindex :: ancestors of pindex`; `[]` is a null `pindex` (the error
path).  The `while` loop walks parent links while the entry has a parent
and lacks the flag; if the entry it stops at still lacks the flag, the
modifier out-parameter is set to 0 and the time out-parameter keeps the
caller's initialisation (0 at the only call site, line 157). -/
def GetLastStakeModifier : List CBlockIndexM → Option (Nat × Int)
  | [] => none
  | [p] =>
    if p.fGeneratedStakeModifier then some (p.nStakeModifier, p.nTime)
    else some (0, 0)
  | p :: q :: rest =>
    if p.fGeneratedStakeModifier then some (p.nStakeModifier, p.nTime)
    else GetLastStakeModifier (q :: rest)

/-- `GetStakeModifierSelectionIntervalSection` (lines 65-70); `nSection`
ranges over 0..63.  The arithmetic stays far below 2^32 for the
repository's constants (3-hour interval), so plain `Nat` arithmetic
coincides with the C++ `unsigned` arithmetic. -/
def GetStakeModifierSelectionIntervalSection (ctx : StakeCtx)
    (nSection : Nat) : Nat :=
  ctx.modifierIntervalGlobalVar * 63 /
    (63 + (63 - nSection) * (ctx.modifierIntervalRatioConst - 1))

/-- `GetStakeModifierSelectionInterval` (lines 73-80): the sum of the 64
section lengths. -/
def GetStakeModifierSelectionInterval (ctx : StakeCtx) : Nat :=
  (List.range 64).foldl
    (fun acc k => acc + GetStakeModifierSelectionIntervalSection ctx k) 0

/-- The selection hash before the proof-of-stake shift (lines 105-108):
`Hash(hashProof .. nStakeModifierPrev)` where `hashProof` is
`hashProofOfStake` for a PoS block and the block hash otherwise, and the
stream holds the 32 bytes of the uint256 followed by the 8 bytes of the
previous modifier. -/
def rawSelectionHash (H : List Nat → Nat) (nStakeModifierPrev : Nat)
    (p : CBlockIndexM) : Nat :=
  H (serLE 32 (if p.fProofOfStake then p.hashProofOfStake else p.blockHash)
      ++ serLE 8 nStakeModifierPrev)

/-- The selection hash actually compared (lines 108-113): PoS blocks have
their hash divided by 2^32. -/
def selectionHash (H : List Nat → Nat) (nStakeModifierPrev : Nat)
    (p : CBlockIndexM) : Nat :=
  if p.fProofOfStake then rawSelectionHash H nStakeModifierPrev p >>> 32
  else rawSelectionHash H nStakeModifierPrev p

/-- The candidate loop of `SelectBlockFromCandidates` (lines 94-125).
`bi` is the `mapBlockIndex` lookup; `acc` carries `(hashBest, selected)`
once `fSelected` is true.  Outer `none` is the `error(...)` path (a
candidate absent from the index); the break, continue and
best-replacement logic follow the source order. -/
def selectGo (H : List Nat → Nat) (bi : Nat → Option CBlockIndexM)
    (mapSelectedBlocks : List Nat) (nSelectionIntervalStop : Int)
    (nStakeModifierPrev : Nat) :
    List (Int × Nat) → Option (Nat × CBlockIndexM) →
    Option (Option (Nat × CBlockIndexM))
  | [], acc => some acc
  | (_, h) :: rest, acc =>
    match bi h with
    | none => none
    | some pindex =>
      match acc with
      | some (hashBest, pindexSelected) =>
        if nSelectionIntervalStop < pindex.nTime then
          some (some (hashBest, pindexSelected))
        else if pindex.blockHash ∈ mapSelectedBlocks then
          selectGo H bi mapSelectedBlocks nSelectionIntervalStop
            nStakeModifierPrev rest (some (hashBest, pindexSelected))
        else if selectionHash H nStakeModifierPrev pindex < hashBest then
          selectGo H bi mapSelectedBlocks nSelectionIntervalStop
            nStakeModifierPrev rest
            (some (selectionHash H nStakeModifierPrev pindex, pindex))
        else
          selectGo H bi mapSelectedBlocks nSelectionIntervalStop
            nStakeModifierPrev rest (some (hashBest, pindexSelected))
      | none =>
        if pindex.blockHash ∈ mapSelectedBlocks then
          selectGo H bi mapSelectedBlocks nSelectionIntervalStop
            nStakeModifierPrev rest none
        else
          selectGo H bi mapSelectedBlocks nSelectionIntervalStop
            nStakeModifierPrev rest
            (some (selectionHash H nStakeModifierPrev pindex, pindex))

/-- `SelectBlockFromCandidates` (lines 85-129).  Returns the selected
entry, or `none` both on the index-lookup error path and when no candidate
was selected (`return fSelected` with `fSelected == false`); the caller
treats both as round failure. -/
def SelectBlockFromCandidates (H : List Nat → Nat)
    (bi : Nat → Option CBlockIndexM) (vSortedByTimestamp : List (Int × Nat))
    (mapSelectedBlocks : List Nat) (nSelectionIntervalStop : Int)
    (nStakeModifierPrev : Nat) : Option CBlockIndexM :=
  match selectGo H bi mapSelectedBlocks nSelectionIntervalStop
      nStakeModifierPrev vSortedByTimestamp none with
  | none => none
  | some none => none
  | some (some (_, pindexSelected)) => some pindexSelected

/-- `memcmp` order on two uint256 values as stored (little-endian byte
arrays): `base_blob::Compare`, the comparison behind
`uint256::operator<`. -/
def leBytes : List Nat → List Nat → Bool
  | [], _ => true
  | _ :: _, [] => false
  | x :: xs, y :: ys =>
    if x < y then true else if y < x then false else leBytes xs ys

/-- `std::sort` order on `pair<int64_t, uint256>`: lexicographic with the
hash compared by `base_blob::Compare` (memcmp over the stored
little-endian bytes). -/
def candLe (a b : Int × Nat) : Bool :=
  if a.1 < b.1 then true
  else if b.1 < a.1 then false
  else leBytes (serLE 32 a.2) (serLE 32 b.2)

/-- The 64-round selection loop of `ComputeNextStakeModifier`
(lines 181-197): per round extend the stop time by the round's section,
select a block, OR its entropy bit into bit `nRound` of the new modifier
and add it to the selected set.  `rounds` is `List.range (min 64 n)`. -/
def stakeModifierRounds (H : List Nat → Nat)
    (ctx : StakeCtx) (bi : Nat → Option CBlockIndexM)
    (vSortedByTimestamp : List (Int × Nat)) (nStakeModifier : Nat) :
    List Nat → Int → Nat → List Nat → Option Nat
  | [], _, nStakeModifierNew, _ => some nStakeModifierNew
  | nRound :: rounds, nSelectionIntervalStop, nStakeModifierNew,
      mapSelectedBlocks =>
    let stop :=
      nSelectionIntervalStop +
        (GetStakeModifierSelectionIntervalSection ctx nRound : Int)
    match SelectBlockFromCandidates H bi vSortedByTimestamp
        mapSelectedBlocks stop nStakeModifier with
    | none => none
    | some pindex =>
      stakeModifierRounds H ctx bi vSortedByTimestamp nStakeModifier rounds
        stop
        (nStakeModifierNew |||
          ((if pindex.stakeEntropyBit then 1 else 0) <<< nRound))
        (pindex.blockHash :: mapSelectedBlocks)

/-- The new-modifier branch of `ComputeNextStakeModifier`
(lines 165-224): gather candidates from `pindexPrev` backward while
`GetBlockTime() >= nSelectionIntervalStart`, reverse and sort them, then
run the round loop. `chain` is `pindexPrev :: its ancestors`. -/
def computeNewStakeModifier (H : List Nat → Nat) (ctx : StakeCtx)
    (bi : Nat → Option CBlockIndexM) (chain : List CBlockIndexM)
    (nStakeModifier : Nat) : Option Nat :=
  match chain with
  | [] => none
  | prev :: rest =>
    let nSelectionInterval : Int := GetStakeModifierSelectionInterval ctx
    let nSelectionIntervalStart : Int :=
      (prev.nTime.tdiv ctx.paramsModifierInterval) *
        ctx.paramsModifierInterval - nSelectionInterval
    let vSortedByTimestamp :=
      (((prev :: rest).takeWhile
          (fun b => nSelectionIntervalStart ≤ b.nTime)).map
        (fun b => (b.nTime, b.blockHash))).reverse.mergeSort candLe
    stakeModifierRounds H ctx bi vSortedByTimestamp nStakeModifier
      (List.range (min 64 vSortedByTimestamp.length))
      nSelectionIntervalStart 0 []

/-- `ComputeNextStakeModifier` (lines 144-225).  The argument is the chain
`pindexPrev :: ancestors of pindexPrev` (so `[]` means
`pindexCurrent->pprev == nullptr`); the result is
`some (nStakeModifier, fGeneratedStakeModifier)`, `none` on the error
paths. -/
def ComputeNextStakeModifier (H : List Nat → Nat) (ctx : StakeCtx)
    (bi : Nat → Option CBlockIndexM) (prevChain : List CBlockIndexM) :
    Option (Nat × Bool) :=
  match prevChain with
  | [] => some (0, true)
  | prev :: rest =>
    match GetLastStakeModifier (prev :: rest) with
    | none => none
    | some (nStakeModifier, nModifierTime) =>
      -- if (nModifierTime / I >= pindexPrev->GetBlockTime() / I) return true;
      if prev.nTime.tdiv ctx.paramsModifierInterval ≤
          nModifierTime.tdiv ctx.paramsModifierInterval then
        some (nStakeModifier, false)
      else
        (computeNewStakeModifier H ctx bi (prev :: rest)
            nStakeModifier).map (fun m => (m, true))

/-! ## Kernel script check (kernel source lines 326-350) -/

/-- The classification `Solver` assigns to a `scriptPubKey` together with
`vSolutions[0]`.  Modelled from the spec: output-script pattern solving
(`Solver`, `script/standard.cpp`) is not among the sources under review;
per spec section 4.4 a script either matches `PUBKEYHASH` (carrying the
20-byte hash), matches `PUBKEY` (carrying the public key bytes), matches
another standard pattern, or fails to solve. -/
inductive SolvedScript where
  | txPubkeyhash (keyid : Nat)
  | txPubkey (pubkey : List Nat)
  | txOtherStandard
  | txNonstandard
deriving DecidableEq

/-- The `extractKeyID` lambda inside `CheckKernelScript` (lines 328-347):
`CKeyID` is default-initialised to the zero value and only overwritten for
`TX_PUBKEYHASH` (the 20-byte hash) and `TX_PUBKEY`
(`CPubKey(...).GetID()`, i.e. `hash160` of the pubkey bytes — an external
hash primitive, passed as `hash160`). -/
def extractKeyID (hash160 : List Nat → Nat) : SolvedScript → Nat
  | .txPubkeyhash keyid => keyid
  | .txPubkey pubkey => hash160 pubkey
  | .txOtherStandard => 0
  | .txNonstandard => 0

/-- `CheckKernelScript` (lines 326-350): the key-ids extracted from the
staked input's script and the spend output's script must be equal. -/
def CheckKernelScript (hash160 : List Nat → Nat)
    (scriptVin scriptVout : SolvedScript) : Bool :=
  extractKeyID hash160 scriptVin == extractKeyID hash160 scriptVout

/-! ## Masternode payments (`src/masternode-payments.cpp`) -/

/-- A transaction output: `(nValue, scriptPubKey)`; `CTxOut::operator==`
compares exactly these two fields.  Scripts are byte lists. -/
abbrev CTxOutM := Int × List Nat

/-- The deterministic masternode payee (`CDeterministicMNCPtr`):
`nOperatorReward` in basis points, `pdmnState->scriptPayout` and
`pdmnState->scriptOperatorPayout` (the empty list is `CScript()`). -/
structure DMNPayee where
  nOperatorReward : Nat
  scriptPayout : List Nat
  scriptOperatorPayout : List Nat
deriving DecidableEq

/-- Collaborator state read by the payment-layer functions: consensus
parameters, spork/sync/lite flags, the superblock subsystem and the
deterministic MN list.  `dmnPayee h` abstracts
`deterministicMNManager->GetListForBlock(chainActive[h-1]->GetBlockHash()).GetMNPayee()`;
`superblockValid vout h reward` abstracts
`CSuperblockManager::IsValid(tx, h, reward)` on a transaction with the
given outputs. -/
structure MNCtx where
  nGenerationHeight : Int
  nGenerationAmount : Int
  sporkAddressScript : List Nat
  fLiteMode : Bool
  nSuperblockStartBlock : Int
  spork9SuperblocksEnabled : Bool
  superblockTriggered : Int → Bool
  superblockValid : List CTxOutM → Int → Int → Bool
  superblockPaymentsLimit : Int → Int
  isValidSuperblockHeight : Int → Bool
  masternodeSyncIsSynced : Bool
  getMasternodePayment : Int → Int → Int
  dmnPayee : Int → Option DMNPayee

/-- `CTransaction::GetValueOut()`: the sum of the output values. -/
def GetValueOut (vout : List CTxOutM) : Int := (vout.map (fun o => o.1)).sum

/-- A block as read by `IsBlockValueValid`: the PoS flag, the outputs of
`vtx[0]` and `vtx[1]`, and `view.GetValueIn(*vtx[1])` (the UTXO view is an
external collaborator, so the input value is a field). -/
structure BlockM where
  fProofOfStake : Bool
  vtx0 : List CTxOutM
  vtx1 : List CTxOutM
  vtx1ValueIn : Int

/-- `IsBlockValueValid` (masternode-payments.cpp lines 37-115), returning
`(verdict, strErrorRet)`.  The error strings stand in for the `strprintf`
messages (their exact text carries no logic). -/
def IsBlockValueValid (ctx : MNCtx) (block : BlockM) (nBlockHeight : Int)
    (blockReward : Int) : Bool × String :=
  let vtxN := if block.fProofOfStake then block.vtx1 else block.vtx0
  let nValueIn := if block.fProofOfStake then block.vtx1ValueIn else 0
  let blockValue := GetValueOut vtxN - nValueIn
  let isBlockRewardValueMet := blockValue ≤ blockReward
  let nSuperblockMaxValue :=
    blockReward + ctx.superblockPaymentsLimit nBlockHeight
  let isSuperblockMaxValueMet := blockValue ≤ nSuperblockMaxValue
  if nBlockHeight = ctx.nGenerationHeight then (true, "")
  else if ¬ ctx.isValidSuperblockHeight nBlockHeight then
    (isBlockRewardValueMet,
      if isBlockRewardValueMet then ""
      else "coinbase pays too much, exceeded block reward, only regular blocks are allowed at this height")
  else if ¬ isSuperblockMaxValueMet then
    (false, "coinbase pays too much, exceeded superblock max value")
  else if ¬ ctx.masternodeSyncIsSynced ∨ ctx.fLiteMode then (true, "")
  else if ¬ ctx.spork9SuperblocksEnabled then
    (isBlockRewardValueMet,
      if isBlockRewardValueMet then ""
      else "coinbase pays too much, exceeded block reward, superblocks are disabled")
  else if ¬ ctx.superblockTriggered nBlockHeight then
    (isBlockRewardValueMet,
      if isBlockRewardValueMet then ""
      else "coinbase pays too much, exceeded block reward, no triggered superblock detected")
  else if ¬ ctx.superblockValid vtxN nBlockHeight blockReward then
    (false, "invalid superblock detected")
  else (true, "")

/-- `CMasternodePayments::GetBlockTxOuts` (lines 301-334): `none` when the
deterministic MN list yields no payee; otherwise the masternode output
(if its reduced reward is positive) followed by the operator output (if
the operator cut is positive). -/
def GetBlockTxOuts (ctx : MNCtx) (nBlockHeight : Int) (blockReward : Int) :
    Option (List CTxOutM) :=
  let masternodeReward := ctx.getMasternodePayment nBlockHeight blockReward
  match ctx.dmnPayee nBlockHeight with
  | none => none
  | some dmnPayee =>
    let operatorReward :=
      if dmnPayee.nOperatorReward ≠ 0 ∧ dmnPayee.scriptOperatorPayout ≠ []
      then (masternodeReward * (dmnPayee.nOperatorReward : Int)).tdiv 10000
      else 0
    let masternodeReward2 := masternodeReward - operatorReward
    some
      ((if 0 < masternodeReward2 then
          [(masternodeReward2, dmnPayee.scriptPayout)] else []) ++
        (if 0 < operatorReward then
          [(operatorReward, dmnPayee.scriptOperatorPayout)] else []))

/-- `CMasternodePayments::IsTransactionValid` (lines 352-378): permissive
`true` when `GetBlockTxOuts` fails; otherwise every expected output must
occur among `txNew.vout` as an exact `(value, script)` match. -/
def IsTransactionValid (ctx : MNCtx) (txNewVout : List CTxOutM)
    (nBlockHeight : Int) (blockReward : Int) : Bool :=
  match GetBlockTxOuts ctx nBlockHeight blockReward with
  | none => true
  | some voutMasternodePayments =>
    voutMasternodePayments.all
      (fun txout => txNewVout.any (fun txout2 => txout == txout2))

/-- `IsBlockPayeeValid` (lines 117-183).  The generation-height check runs
first; then the lite-mode bypass; then the pre-superblock window; then the
superblock validity check (only able to reject when the spork is active
and a superblock is triggered); finally the masternode payment check. -/
def IsBlockPayeeValid (ctx : MNCtx) (txNewVout : List CTxOutM)
    (nBlockHeight : Int) (blockReward : Int) : Bool :=
  if nBlockHeight = ctx.nGenerationHeight then
    txNewVout.any (fun tx =>
      tx.1 == ctx.nGenerationAmount && tx.2 == ctx.sporkAddressScript)
  else if ctx.fLiteMode then true
  else if nBlockHeight < ctx.nSuperblockStartBlock then true
  else if ctx.spork9SuperblocksEnabled ∧
      ctx.superblockTriggered nBlockHeight ∧
      ¬ ctx.superblockValid txNewVout nBlockHeight blockReward then false
  else IsTransactionValid ctx txNewVout nBlockHeight blockReward

/-! ## Theorems -/

/-- C1 (counterexample): the claim's preimage description is refuted.  At a
concrete gate-passing invocation (hash abstracted by the byte-string
length, so that the hash output reveals the preimage width), the verifier
returns a hash of a 32-byte preimage, while the claimed preimage
(`modifier:u64 then four u32 fields`, the fourth being a 32-bit
transaction time) is 28 bytes: the source serialises
`txPrevTime = blockFrom.GetBlockTime()`, an `int64_t`, as 8 bytes. -/
theorem checkStakeKernelHash_spec_preimage_refuted :
    CheckStakeKernelHash (fun l => l.length) ⟨100, 1000000, 1000000000000⟩
        (some 1) 0x04000001 ⟨1000⟩ 0 [1000000000000] 0 5000 =
      KernelResult.accepted 32 ∧
    (specPreimage28 1 1000 0 1000 0 5000).length = 28 ∧
    (fun l : List Nat => l.length) (specPreimage28 1 1000 0 1000 0 5000) ≠ 32 ∧
    kernelPreimage 1 1000 0 1000 0 5000 ≠ specPreimage28 1 1000 0 1000 0 5000 :=
  ⟨by decide, by decide, by decide, by decide⟩

/-- C1 (amended): for every invocation that passes the three gates and
resolves a stake modifier, the returned `hashProofOfStake` is `H` of the
32-byte preimage `modifier:u64 LE, block_from.time:u32 LE,
tx_offset_in_block:u32 LE, block_from.time:i64 LE (8 bytes, the
`int64_t` `txPrevTime`, which in this code base is the staked coin's
block time, not a transaction timestamp), prevout.n:u32 LE,
time_tx:u32 LE`. -/
theorem checkStakeKernelHash_hashes_32byte_preimage
    (H : List Nat → Nat) (P : KernelParams) (m : Nat) (nBits : Nat)
    (blockFrom : CBlockHeaderM) (nTxPrevOffset : Nat) (txPrevVout : List Int)
    (prevoutN : Nat) (nTimeTx : Nat)
    (h1 : ¬ ((nTimeTx : Int) < (blockFrom.nTime : Int)))
    (h2 : ¬ (((blockFrom.nTime % 4294967296 : Nat) : Int) +
      (P.nStakeMinAge : Int) > (nTimeTx : Int)))
    (h3 : ¬ (txPrevVout.getD prevoutN 0 < P.nMinimumStakeValue)) :
    ∃ hp,
      (CheckStakeKernelHash H P (some m) nBits blockFrom nTxPrevOffset
          txPrevVout prevoutN nTimeTx = KernelResult.accepted hp ∨
        CheckStakeKernelHash H P (some m) nBits blockFrom nTxPrevOffset
          txPrevVout prevoutN nTimeTx = KernelResult.rejected hp) ∧
      hp = H (serLE 8 m ++ serLE 4 (blockFrom.nTime % 4294967296) ++
        serLE 4 nTxPrevOffset ++ serLE 8 (toU64 blockFrom.nTime) ++
        serLE 4 prevoutN ++ serLE 4 nTimeTx) ∧
      (serLE 8 m ++ serLE 4 (blockFrom.nTime % 4294967296) ++
        serLE 4 nTxPrevOffset ++ serLE 8 (toU64 blockFrom.nTime) ++
        serLE 4 prevoutN ++ serLE 4 nTimeTx).length = 32 := by
  refine ⟨H (kernelPreimage m (blockFrom.nTime % 4294967296) nTxPrevOffset
    blockFrom.nTime prevoutN nTimeTx), ?_, rfl,
    by simp [serLE_length]⟩
  simp only [CheckStakeKernelHash, if_neg h1, if_neg h2, if_neg h3]
  by_cases hlt :
      toU64 (((txPrevVout.getD prevoutN 0 *
          min ((nTimeTx : Int) - (blockFrom.nTime : Int))
            ((P.nStakeMaxAge : Int) - (P.nStakeMinAge : Int))).tdiv
        COIN).tdiv 200) * SetCompact nBits <
      H (kernelPreimage m (blockFrom.nTime % 4294967296) nTxPrevOffset
        blockFrom.nTime prevoutN nTimeTx)
  · exact Or.inr (by rw [if_pos hlt])
  · exact Or.inl (by rw [if_neg hlt])

/-- C1 (witness): the amended theorem applied at a concrete gate-passing
input. -/
theorem checkStakeKernelHash_hashes_32byte_preimage_witness :
    ∃ hp,
      (CheckStakeKernelHash (fun l => l.length)
          ⟨100, 1000000, 1000000000000⟩ (some 1) 0x04000001 ⟨1000⟩ 0
          [1000000000000] 0 5000 = KernelResult.accepted hp ∨
        CheckStakeKernelHash (fun l => l.length)
          ⟨100, 1000000, 1000000000000⟩ (some 1) 0x04000001 ⟨1000⟩ 0
          [1000000000000] 0 5000 = KernelResult.rejected hp) ∧
      hp = (fun l : List Nat => l.length)
        (serLE 8 1 ++ serLE 4 (1000 % 4294967296) ++ serLE 4 0 ++
          serLE 8 (toU64 1000) ++ serLE 4 0 ++ serLE 4 5000) ∧
      (serLE 8 1 ++ serLE 4 (1000 % 4294967296) ++ serLE 4 0 ++
        serLE 8 (toU64 1000) ++ serLE 4 0 ++ serLE 4 5000).length = 32 :=
  checkStakeKernelHash_hashes_32byte_preimage (fun l => l.length)
    ⟨100, 1000000, 1000000000000⟩ 1 0x04000001 ⟨1000⟩ 0 [1000000000000] 0
    5000 (by decide) (by decide) (by decide)

/-- C2: for every gate-passing invocation that resolves a stake modifier,
the verifier accepts iff the kernel hash is at most the full product
`coin_day_weight * target_per_coin_day` (the `arith_uint256`
multiplication is modelled from the spec with overflow into higher limbs
preserved, since `arith_uint256.h` is not among the sources under
review). -/
theorem checkStakeKernelHash_accepts_iff_product
    (H : List Nat → Nat) (P : KernelParams) (m : Nat) (nBits : Nat)
    (blockFrom : CBlockHeaderM) (nTxPrevOffset : Nat) (txPrevVout : List Int)
    (prevoutN : Nat) (nTimeTx : Nat)
    (h1 : ¬ ((nTimeTx : Int) < (blockFrom.nTime : Int)))
    (h2 : ¬ (((blockFrom.nTime % 4294967296 : Nat) : Int) +
      (P.nStakeMinAge : Int) > (nTimeTx : Int)))
    (h3 : ¬ (txPrevVout.getD prevoutN 0 < P.nMinimumStakeValue)) :
    CheckStakeKernelHash H P (some m) nBits blockFrom nTxPrevOffset
        txPrevVout prevoutN nTimeTx =
      KernelResult.accepted (H (kernelPreimage m
        (blockFrom.nTime % 4294967296) nTxPrevOffset blockFrom.nTime
        prevoutN nTimeTx)) ↔
    H (kernelPreimage m (blockFrom.nTime % 4294967296) nTxPrevOffset
        blockFrom.nTime prevoutN nTimeTx) ≤
      toU64 (((txPrevVout.getD prevoutN 0 *
          min ((nTimeTx : Int) - (blockFrom.nTime : Int))
            ((P.nStakeMaxAge : Int) - (P.nStakeMinAge : Int))).tdiv
        COIN).tdiv 200) * SetCompact nBits := by
  simp only [CheckStakeKernelHash, if_neg h1, if_neg h2, if_neg h3]
  by_cases hlt :
      toU64 (((txPrevVout.getD prevoutN 0 *
          min ((nTimeTx : Int) - (blockFrom.nTime : Int))
            ((P.nStakeMaxAge : Int) - (P.nStakeMinAge : Int))).tdiv
        COIN).tdiv 200) * SetCompact nBits <
      H (kernelPreimage m (blockFrom.nTime % 4294967296) nTxPrevOffset
        blockFrom.nTime prevoutN nTimeTx)
  · rw [if_pos hlt]
    simp only [reduceCtorEq, false_iff, not_le]
    exact hlt
  · rw [if_neg hlt]
    simp only [KernelResult.accepted.injEq, true_iff]
    exact Nat.le_of_not_lt hlt

/-- C2 (witness): the acceptance criterion at a concrete gate-passing
input. -/
theorem checkStakeKernelHash_accepts_iff_product_witness :
    CheckStakeKernelHash (fun l => l.length)
        ⟨100, 1000000, 1000000000000⟩ (some 1) 0x04000001 ⟨1000⟩ 0
        [1000000000000] 0 5000 =
      KernelResult.accepted ((fun l : List Nat => l.length)
        (kernelPreimage 1 (1000 % 4294967296) 0 1000 0 5000)) ↔
    (fun l : List Nat => l.length)
        (kernelPreimage 1 (1000 % 4294967296) 0 1000 0 5000) ≤
      toU64 ((((1000000000000 : Int) *
          min ((5000 : Int) - (1000 : Int))
            ((1000000 : Int) - (100 : Int))).tdiv COIN).tdiv 200) *
        SetCompact 0x04000001 :=
  checkStakeKernelHash_accepts_iff_product (fun l => l.length)
    ⟨100, 1000000, 1000000000000⟩ 1 0x04000001 ⟨1000⟩ 0 [1000000000000] 0
    5000 (by decide) (by decide) (by decide)

/-- C3 (counterexample): the reuse condition is not an equality test.  On a
chain whose last generated-modifier entry has block time 12000 while
`prev` has block time 1001 (modifier interval 10800), the interval
quotients differ (1 vs 0) yet the previous modifier 42 is reused with
`generated == false`, because the source tests
`nModifierTime / I >= prev.time / I`, not equality. -/
theorem computeNextStakeModifier_reuse_eq_refuted :
    ComputeNextStakeModifier (fun _ => 0) ⟨10800, 10800, 3⟩ (fun _ => none)
        [⟨1001, 11, false, 0, false, 0, false⟩,
          ⟨12000, 12, false, 0, true, 42, false⟩] = some (42, false) ∧
    GetLastStakeModifier
        [⟨1001, 11, false, 0, false, 0, false⟩,
          ⟨12000, 12, false, 0, true, 42, false⟩] = some (42, 12000) ∧
    (12000 : Int).tdiv 10800 ≠ (1001 : Int).tdiv 10800 :=
  ⟨by decide, by decide, by decide⟩

/-- C3 (amended): with `(m, t)` the result of the backward walk,
`ComputeNextStakeModifier` reuses the previous modifier (returns
`(m, false)`) iff `t / modifier_interval >= prev.block_time /
modifier_interval` (integer division; `>=`, not `==` — the two agree
whenever `t <= prev.block_time`); otherwise it either computes a new
modifier (`generated == true`) or fails. -/
theorem computeNextStakeModifier_reuse_iff_ge
    (H : List Nat → Nat) (ctx : StakeCtx) (bi : Nat → Option CBlockIndexM)
    (prev : CBlockIndexM) (rest : List CBlockIndexM) (m : Nat) (t : Int)
    (hGet : GetLastStakeModifier (prev :: rest) = some (m, t)) :
    (ComputeNextStakeModifier H ctx bi (prev :: rest) = some (m, false) ↔
      prev.nTime.tdiv ctx.paramsModifierInterval ≤
        t.tdiv ctx.paramsModifierInterval) ∧
    (¬ prev.nTime.tdiv ctx.paramsModifierInterval ≤
        t.tdiv ctx.paramsModifierInterval →
      ComputeNextStakeModifier H ctx bi (prev :: rest) = none ∨
        ∃ m2, ComputeNextStakeModifier H ctx bi (prev :: rest) =
          some (m2, true)) := by
  constructor
  · by_cases hc : prev.nTime.tdiv ctx.paramsModifierInterval ≤
        t.tdiv ctx.paramsModifierInterval
    · simp [ComputeNextStakeModifier, hGet, hc]
    · simp only [ComputeNextStakeModifier, hGet, if_neg hc]
      constructor
      · intro h
        exfalso
        cases hcm : computeNewStakeModifier H ctx bi (prev :: rest) m with
        | none => rw [hcm] at h; simp at h
        | some m2 => rw [hcm] at h; simp at h
      · intro h
        exact absurd h hc
  · intro hc
    simp only [ComputeNextStakeModifier, hGet, if_neg hc]
    cases hcm : computeNewStakeModifier H ctx bi (prev :: rest) m with
    | none => exact Or.inl rfl
    | some m2 => exact Or.inr ⟨m2, rfl⟩

/-- C3 (witness): the amended theorem at a concrete chain whose last
generated modifier (7, at time 90) shares the interval of `prev`
(time 100), so the modifier is reused. -/
theorem computeNextStakeModifier_reuse_iff_ge_witness :
    ComputeNextStakeModifier (fun _ => 0) ⟨10800, 10800, 3⟩ (fun _ => none)
      [⟨100, 31, false, 0, false, 0, false⟩,
        ⟨90, 32, false, 0, true, 7, false⟩] = some (7, false) :=
  (computeNextStakeModifier_reuse_iff_ge (fun _ => 0) ⟨10800, 10800, 3⟩
    (fun _ => none) ⟨100, 31, false, 0, false, 0, false⟩
    [⟨90, 32, false, 0, true, 7, false⟩] 7 90 (by decide)).1.mpr
    (by decide)

/-- Helper: when no entry of the walk carries *GeneratedStakeModifier*,
`GetLastStakeModifier` yields modifier 0 and leaves the time out-parameter
at its initialisation 0 (kernel source lines 55-58 set only the
modifier). -/
theorem getLastStakeModifier_all_unflagged (prev : CBlockIndexM)
    (rest : List CBlockIndexM)
    (hAll : ∀ b ∈ prev :: rest, b.fGeneratedStakeModifier = false) :
    GetLastStakeModifier (prev :: rest) = some (0, 0) := by
  induction rest generalizing prev with
  | nil =>
    have := hAll prev (by simp)
    simp [GetLastStakeModifier, this]
  | cons q rs ih =>
    have hprev := hAll prev (by simp)
    have : ∀ b ∈ q :: rs, b.fGeneratedStakeModifier = false := by
      intro b hb
      exact hAll b (by simp [hb])
    simp [GetLastStakeModifier, hprev, ih q this]

/-- C4 (counterexample): on a non-null `prev` (block time 10, modifier
interval 10800) whose walk reaches the chain start without finding a
*GeneratedStakeModifier* entry, `ComputeNextStakeModifier` returns
modifier 0 with generation flag `false` — not the claimed immediate
`(0, true)` return: the genesis fallback in `GetLastStakeModifier` only
zeroes the modifier, and the `(0, true)` early return exists solely for a
null `prev`. -/
theorem computeNextStakeModifier_genesis_fallback_refuted :
    ComputeNextStakeModifier (fun _ => 0) ⟨10800, 10800, 3⟩ (fun _ => none)
        [⟨10, 21, false, 0, false, 0, false⟩] = some (0, false) ∧
    ComputeNextStakeModifier (fun _ => 0) ⟨10800, 10800, 3⟩ (fun _ => none)
        [⟨10, 21, false, 0, false, 0, false⟩] ≠ some (0, true) :=
  ⟨by decide, by decide⟩

/-- C4 (amended): when the backward walk from a non-null `prev` finds no
*GeneratedStakeModifier* entry, `GetLastStakeModifier` yields `(0, 0)`;
`ComputeNextStakeModifier` then reuses modifier 0 with
`generated == false` whenever `prev.block_time / modifier_interval <= 0`,
and otherwise proceeds to compute a new modifier (returning
`generated == true` on success or failing); it never takes the claimed
immediate modifier-0/flag-true return, which is reserved for a null
`prev`. -/
theorem computeNextStakeModifier_no_flag_behavior
    (H : List Nat → Nat) (ctx : StakeCtx) (bi : Nat → Option CBlockIndexM)
    (prev : CBlockIndexM) (rest : List CBlockIndexM)
    (hAll : ∀ b ∈ prev :: rest, b.fGeneratedStakeModifier = false) :
    GetLastStakeModifier (prev :: rest) = some (0, 0) ∧
    (prev.nTime.tdiv ctx.paramsModifierInterval ≤ 0 →
      ComputeNextStakeModifier H ctx bi (prev :: rest) = some (0, false)) ∧
    (0 < prev.nTime.tdiv ctx.paramsModifierInterval →
      ComputeNextStakeModifier H ctx bi (prev :: rest) = none ∨
        ∃ m2, ComputeNextStakeModifier H ctx bi (prev :: rest) =
          some (m2, true)) := by
  have hGet := getLastStakeModifier_all_unflagged prev rest hAll
  refine ⟨hGet, ?_, ?_⟩
  · intro hle
    have hc : prev.nTime.tdiv ctx.paramsModifierInterval ≤
        (0 : Int).tdiv ctx.paramsModifierInterval := by
      rw [Int.zero_tdiv]; exact hle
    simp only [ComputeNextStakeModifier, hGet, if_pos hc]
  · intro hpos
    have hc : ¬ prev.nTime.tdiv ctx.paramsModifierInterval ≤
        (0 : Int).tdiv ctx.paramsModifierInterval := by
      rw [Int.zero_tdiv]; omega
    simp only [ComputeNextStakeModifier, hGet, if_neg hc]
    cases hcm : computeNewStakeModifier H ctx bi (prev :: rest) 0 with
    | none => exact Or.inl rfl
    | some m2 => exact Or.inr ⟨m2, rfl⟩

/-- C4 (witness): the amended theorem at the concrete unflagged chain of
the counterexample — modifier 0 is reused with generation flag false. -/
theorem computeNextStakeModifier_no_flag_behavior_witness :
    GetLastStakeModifier [⟨10, 21, false, 0, false, 0, false⟩] =
      some (0, 0) ∧
    ComputeNextStakeModifier (fun _ => 0) ⟨10800, 10800, 3⟩ (fun _ => none)
      [⟨10, 21, false, 0, false, 0, false⟩] = some (0, false) :=
  ⟨(computeNextStakeModifier_no_flag_behavior (fun _ => 0) ⟨10800, 10800, 3⟩
      (fun _ => none) ⟨10, 21, false, 0, false, 0, false⟩ []
      (by decide)).1,
    (computeNextStakeModifier_no_flag_behavior (fun _ => 0)
      ⟨10800, 10800, 3⟩ (fun _ => none) ⟨10, 21, false, 0, false, 0, false⟩
      [] (by decide)).2.1 (by decide)⟩

/-- A proof-of-work candidate entry used by the C5 scenario (block hash 1,
block time 0). -/
def powCand : CBlockIndexM := ⟨0, 1, false, 0, false, 0, false⟩

/-- A proof-of-stake candidate entry used by the C5 scenario (block hash 2,
proof hash 7, block time 0). -/
def posCand : CBlockIndexM := ⟨0, 2, true, 7, false, 0, false⟩

/-- `mapBlockIndex` for the C5 scenario: hash 1 is the PoW candidate,
hash 2 the PoS candidate. -/
def biC5 : Nat → Option CBlockIndexM :=
  fun h => if h = 1 then some powCand else if h = 2 then some posCand
    else none

/-- C5 (counterexample): the tie-break is not unconditionally in favour of
the PoS candidate.  With a hash function returning 0 on both candidates
(equal raw selection hashes), both selection hashes are 0 after the PoS
shift, so the strictly-lower test never replaces the first-seen best: the
PoW candidate, sorted first, wins even though an eligible PoS candidate
ties it. -/
theorem selectBlockFromCandidates_pos_bias_refuted :
    SelectBlockFromCandidates (fun _ => 0) biC5 [(0, 1), (0, 2)] [] 10 0 =
      some powCand ∧
    powCand.fProofOfStake = false ∧
    posCand.fProofOfStake = true ∧
    rawSelectionHash (fun _ => 0) 0 powCand =
      rawSelectionHash (fun _ => 0) 0 posCand ∧
    posCand.nTime ≤ 10 ∧
    biC5 2 = some posCand :=
  ⟨by decide, by decide, by decide, by decide, by decide, by decide⟩

/-- C5 (amended): the PoS candidate's selection hash is the raw hash
shifted right by 32 bits and the PoW candidate's is unshifted; in a round
over one eligible PoW and one eligible PoS candidate whose raw
`H(proof, last_mod)` values are equal and nonzero, the PoS candidate is
selected regardless of the sorted order (when the common raw value is 0
both selection hashes are 0 and the first candidate in sorted order
wins). -/
theorem selectBlockFromCandidates_pos_bias
    (H : List Nat → Nat) (bi : Nat → Option CBlockIndexM)
    (stop : Int) (modPrev : Nat) (t1 t2 : Int) (h1 h2 : Nat)
    (q1 q2 : CBlockIndexM)
    (hb1 : bi h1 = some q1) (hb2 : bi h2 = some q2)
    (hw : q1.fProofOfStake = false) (hs : q2.fProofOfStake = true)
    (he1 : q1.nTime ≤ stop) (he2 : q2.nTime ≤ stop)
    (htie : rawSelectionHash H modPrev q1 = rawSelectionHash H modPrev q2)
    (hpos : 0 < rawSelectionHash H modPrev q1) :
    selectionHash H modPrev q2 = rawSelectionHash H modPrev q2 >>> 32 ∧
    selectionHash H modPrev q1 = rawSelectionHash H modPrev q1 ∧
    SelectBlockFromCandidates H bi [(t1, h1), (t2, h2)] [] stop modPrev =
      some q2 ∧
    SelectBlockFromCandidates H bi [(t2, h2), (t1, h1)] [] stop modPrev =
      some q2 := by
  have hsh1 : selectionHash H modPrev q1 = rawSelectionHash H modPrev q1 := by
    simp [selectionHash, hw]
  have hsh2 : selectionHash H modPrev q2 =
      rawSelectionHash H modPrev q2 >>> 32 := by
    simp [selectionHash, hs]
  have hshift : rawSelectionHash H modPrev q2 >>> 32 <
      rawSelectionHash H modPrev q2 := by
    rw [Nat.shiftRight_eq_div_pow]
    exact Nat.div_lt_self (htie ▸ hpos) (by norm_num)
  have hlt : selectionHash H modPrev q2 < selectionHash H modPrev q1 := by
    rw [hsh1, hsh2, htie]
    exact hshift
  have hnlt : ¬ selectionHash H modPrev q1 < selectionHash H modPrev q2 :=
    Nat.lt_asymm hlt
  have hnb1 : ¬ stop < q1.nTime := not_lt.mpr he1
  have hnb2 : ¬ stop < q2.nTime := not_lt.mpr he2
  refine ⟨hsh2, hsh1, ?_, ?_⟩
  · simp [SelectBlockFromCandidates, selectGo, hb1, hb2, hnb2, hlt]
  · simp [SelectBlockFromCandidates, selectGo, hb1, hb2, hnb1, hnlt]

/-- C5 (witness): the amended theorem at the concrete two-candidate
scenario with a constant nonzero hash (both raw selection hashes 5). -/
theorem selectBlockFromCandidates_pos_bias_witness :
    selectionHash (fun _ => 5) 0 posCand =
      rawSelectionHash (fun _ => 5) 0 posCand >>> 32 ∧
    selectionHash (fun _ => 5) 0 powCand =
      rawSelectionHash (fun _ => 5) 0 powCand ∧
    SelectBlockFromCandidates (fun _ => 5) biC5 [(0, 1), (0, 2)] [] 10 0 =
      some posCand ∧
    SelectBlockFromCandidates (fun _ => 5) biC5 [(0, 2), (0, 1)] [] 10 0 =
      some posCand :=
  selectBlockFromCandidates_pos_bias (fun _ => 5) biC5 10 0 0 0 1 2 powCand
    posCand (by decide) (by decide) (by decide) (by decide) (by decide)
    (by decide) (by decide) (by decide)

/-- C6: `CheckKernelScript` returns true iff the two extracted key-ids are
equal — where the key-id is the 20-byte hash for a `PUBKEYHASH` script,
`hash160(pubkey)` for a `PUBKEY` script, and the zero value otherwise —
and in particular it returns true whenever both scripts match neither
pattern (two default-initialised zero `CKeyID`s compare equal). -/
theorem checkKernelScript_iff_keyid_eq (hash160 : List Nat → Nat)
    (scriptVin scriptVout : SolvedScript) :
    (CheckKernelScript hash160 scriptVin scriptVout = true ↔
      extractKeyID hash160 scriptVin = extractKeyID hash160 scriptVout) ∧
    ((scriptVin = SolvedScript.txOtherStandard ∨
        scriptVin = SolvedScript.txNonstandard) →
      (scriptVout = SolvedScript.txOtherStandard ∨
        scriptVout = SolvedScript.txNonstandard) →
      CheckKernelScript hash160 scriptVin scriptVout = true) := by
  constructor
  · simp [CheckKernelScript]
  · rintro (rfl | rfl) (rfl | rfl) <;> rfl

/-- C6 (witness): two scripts matching neither pattern are accepted. -/
theorem checkKernelScript_iff_keyid_eq_witness :
    CheckKernelScript (fun _ => 77) SolvedScript.txNonstandard
      SolvedScript.txOtherStandard = true :=
  (checkKernelScript_iff_keyid_eq (fun _ => 77) SolvedScript.txNonstandard
    SolvedScript.txOtherStandard).2 (Or.inr rfl) (Or.inl rfl)

/-- C7: at the generation height `IsBlockValueValid` accepts
unconditionally with an empty error string, whatever the block's outgoing
value and whatever the superblock / spork / sync / trigger state. -/
theorem isBlockValueValid_generation_height (ctx : MNCtx) (block : BlockM)
    (nBlockHeight blockReward : Int)
    (hgen : nBlockHeight = ctx.nGenerationHeight) :
    IsBlockValueValid ctx block nBlockHeight blockReward = (true, "") := by
  simp [IsBlockValueValid, hgen]

/-- Collaborator state shared by the payment-layer witnesses: generation
height 111, generation amount 5 paid to script `[9]`, lite mode ON, a
deterministic payee with a 25% operator reward, and a flat masternode
payment of 1000000000. -/
def mnCtxW : MNCtx :=
  ⟨111, 5, [9], true, 0, false, fun _ => false, fun _ _ _ => false,
    fun _ => 0, fun _ => false, true, fun _ _ => 1000000000,
    fun _ => some ⟨2500, [1], [2]⟩⟩

/-- C7 (witness): a block creating value 3 at the generation height is
accepted with an empty error string. -/
theorem isBlockValueValid_generation_height_witness :
    IsBlockValueValid mnCtxW ⟨false, [(3, [4])], [], 0⟩ 111 0 =
      (true, "") :=
  isBlockValueValid_generation_height mnCtxW ⟨false, [(3, [4])], [], 0⟩ 111
    0 (by decide)

/-- C8: when the selected payee has a nonzero operator reward and a
non-empty operator payout script, the operator cut is
`masternode_reward * operator_reward_bp / 10000` (truncating integer
division) and, both parts being positive, the result is exactly the
reduced masternode output followed by the operator output. -/
theorem getBlockTxOuts_operator_split (ctx : MNCtx)
    (nBlockHeight blockReward : Int) (payee : DMNPayee)
    (hp : ctx.dmnPayee nBlockHeight = some payee)
    (hop : payee.nOperatorReward ≠ 0)
    (hscript : payee.scriptOperatorPayout ≠ [])
    (hoc : 0 < (ctx.getMasternodePayment nBlockHeight blockReward *
      (payee.nOperatorReward : Int)).tdiv 10000)
    (hmn : 0 < ctx.getMasternodePayment nBlockHeight blockReward -
      (ctx.getMasternodePayment nBlockHeight blockReward *
        (payee.nOperatorReward : Int)).tdiv 10000) :
    GetBlockTxOuts ctx nBlockHeight blockReward =
      some [(ctx.getMasternodePayment nBlockHeight blockReward -
          (ctx.getMasternodePayment nBlockHeight blockReward *
            (payee.nOperatorReward : Int)).tdiv 10000,
          payee.scriptPayout),
        ((ctx.getMasternodePayment nBlockHeight blockReward *
            (payee.nOperatorReward : Int)).tdiv 10000,
          payee.scriptOperatorPayout)] := by
  simp [GetBlockTxOuts, hp, hop, hscript, hoc, hmn]

/-- C8 (witness): the spec's worked example — masternode reward
1000000000 with a 2500 bp operator reward yields `(750000000, payout)`
then `(250000000, operator payout)`. -/
theorem getBlockTxOuts_operator_split_witness :
    GetBlockTxOuts mnCtxW 7 0 =
      some [(750000000, [1]), (250000000, [2])] := by
  rw [getBlockTxOuts_operator_split mnCtxW 7 0 ⟨2500, [1], [2]⟩ rfl
    (by decide) (by decide) (by decide) (by decide)]
  decide

/-- C9: `IsTransactionValid` is permissively true when the deterministic
MN list yields no payee, and otherwise true iff every expected output
occurs among the transaction's outputs as an exact `(value, script)`
match. -/
theorem isTransactionValid_spec (ctx : MNCtx) (txNewVout : List CTxOutM)
    (nBlockHeight blockReward : Int) :
    (GetBlockTxOuts ctx nBlockHeight blockReward = none →
      IsTransactionValid ctx txNewVout nBlockHeight blockReward = true) ∧
    (∀ vs, GetBlockTxOuts ctx nBlockHeight blockReward = some vs →
      (IsTransactionValid ctx txNewVout nBlockHeight blockReward = true ↔
        ∀ o ∈ vs, o ∈ txNewVout)) := by
  constructor
  · intro h
    simp [IsTransactionValid, h]
  · intro vs h
    simp only [IsTransactionValid, h, List.all_eq_true, List.any_eq_true,
      beq_iff_eq]
    constructor
    · intro hall o ho
      obtain ⟨o2, ho2, heq⟩ := hall o ho
      exact heq ▸ ho2
    · intro hall o ho
      exact ⟨o, hall o ho, rfl⟩

/-- C9 (witness): with the shared payee context both expected outputs are
present, so the transaction validates. -/
theorem isTransactionValid_spec_witness :
    IsTransactionValid mnCtxW [(750000000, [1]), (250000000, [2])] 7 0 =
      true :=
  ((isTransactionValid_spec mnCtxW [(750000000, [1]), (250000000, [2])] 7
      0).2 [(750000000, [1]), (250000000, [2])] (by decide)).mpr
    (by decide)

/-- C10: at the generation height, `IsBlockPayeeValid` returns true iff
some output pays the generation amount to the first spork address's
script — for every context, including those with lite mode enabled: the
generation check precedes the lite-mode bypass. -/
theorem isBlockPayeeValid_generation_before_lite (ctx : MNCtx)
    (txNewVout : List CTxOutM) (nBlockHeight blockReward : Int)
    (hgen : nBlockHeight = ctx.nGenerationHeight) :
    IsBlockPayeeValid ctx txNewVout nBlockHeight blockReward = true ↔
      ∃ o ∈ txNewVout, o.1 = ctx.nGenerationAmount ∧
        o.2 = ctx.sporkAddressScript := by
  simp [IsBlockPayeeValid, hgen]

/-- C10 (witness): at generation height 111 with lite mode enabled, a
transaction paying amount 5 to the spork script `[9]` is accepted, and
lite mode really is on in this context. -/
theorem isBlockPayeeValid_generation_before_lite_witness :
    IsBlockPayeeValid mnCtxW [((5 : Int), [9])] 111 0 = true ∧
    mnCtxW.fLiteMode = true :=
  ⟨(isBlockPayeeValid_generation_before_lite mnCtxW [((5 : Int), [9])] 111
      0 (by decide)).mpr ⟨(5, [9]), by decide, by decide, by decide⟩,
    by decide⟩

end EPM
